import Mathlib

/-!
Verification of the orchestration core of an NBA question-answering service
(`app/services/*.py`): the generated-SQL safety gate, the stats pipeline's
retry contract, the question router's dispatch and failure behaviour, the
betting-intent parser and parlay correlation rules, the recency-weighted
news ranking key, the TTL scores cache, and the game-preview fan-out.

External capabilities (language-model calls, database execution, the
scoreboard fetch) are modelled as explicit oracle parameters: a total
function where the Python code cannot observe a failure at that call site
(it either swallows the failure itself or the claim quantifies over runs
where the call returns), an `Except`-valued one where a raised exception is
observable.  Machine floats appear only inside one message string; that
computation is modelled exactly over `ℚ` (see `pyRound07`).

The file is laid out as definitions first, then the lemmas and theorems.
-/

namespace NbaAgent

/-! ## Definitions -/

/-! ### Common

A Python exception, as observed by `except` blocks: either the
`AttributeError` raised by calling `.get` on a non-dict value, or any other
exception carrying its `str(e)` text. -/

/-- A Python exception value. -/
inductive PyExc
  | attributeError
  | exc (msg : String)
deriving DecidableEq

/-- A result row: an ordered field/value mapping (values opaque to control
flow, modelled as strings). -/
def Row := List (String × String)

deriving instance DecidableEq for Row

/-- A news provenance record {title, url, source}. -/
def Source := String × String × String

deriving instance DecidableEq for Source

/-! ### Safety validator (`stats_service.py` lines 10-13)

`_UNSAFE_PATTERN = re.compile(r"\b(INSERT|UPDATE|DELETE|DROP|ALTER|TRUNCATE|CREATE|GRANT|REVOKE|COPY|EXECUTE)\b", re.IGNORECASE)`

We model `_UNSAFE_PATTERN.search(sql) is not None` character by character:
uppercase the haystack (ASCII model of `re.IGNORECASE`), then scan every
position for one of the keywords preceded and followed by a word boundary.
`\w` is modelled as ASCII `[A-Za-z0-9_]`. -/

/-- ASCII model of the regex word-character class `\w` used by `\b`. -/
def isWordChar (c : Char) : Bool := c.isAlphanum || c = '_'

/-- The eleven blocked keywords of `_UNSAFE_PATTERN`, in source order. -/
def mutationKeywords : List String :=
  ["INSERT", "UPDATE", "DELETE", "DROP", "ALTER", "TRUNCATE",
   "CREATE", "GRANT", "REVOKE", "COPY", "EXECUTE"]

/-- `\b` holds on the left of a match position: start of string or a
non-word character just before. -/
def boundaryOk : Option Char → Bool
  | none => true
  | some c => !(isWordChar c)

/-- `\b` holds on the right of a match: end of string or a non-word
character just after. -/
def afterOk : List Char → Bool
  | [] => true
  | c :: _ => !(isWordChar c)

/-- A keyword matches at the head of `cs` with a right word boundary. -/
def matchHere (cs : List Char) (kw : List Char) : Bool :=
  kw.isPrefixOf cs && afterOk (cs.drop kw.length)

/-- Scan of the uppercased statement; `prev` is the character just before
the current position (`none` at the start of the string). -/
def scanAux (prev : Option Char) : List Char → Bool
  | [] => false
  | c :: rest =>
    (boundaryOk prev && mutationKeywords.any (fun kw => matchHere (c :: rest) kw.data))
    || scanAux (some c) rest

/-- Uppercased character sequence of a string (ASCII case-insensitivity). -/
def pyUpper (s : String) : List Char := s.data.map Char.toUpper

/-- Model of `_UNSAFE_PATTERN.search(sql) is not None`: the safety gate
rejects `s` exactly when this is `true`. -/
def mutationSearch (s : String) : Bool := scanAux none (pyUpper s)

/-- The last element of `pre`, or `prev` when `pre` is empty: the character
immediately to the left of a match preceded by `pre`. -/
def lastOr (prev : Option Char) : List Char → Option Char
  | [] => prev
  | c :: cs => lastOr (some c) cs

/-- Declarative reading of the spec sentence: the statement contains one of
the mutation keywords as a case-insensitive whole word. -/
def containsMutationKeyword (s : String) : Prop :=
  ∃ kw ∈ mutationKeywords, ∃ pre post : List Char,
    pyUpper s = pre ++ kw.data ++ post ∧
    boundaryOk (lastOr none pre) = true ∧ afterOk post = true

/-! ### Stats pipeline (`stats_service.py`, `answer_stats_question`)

The generation port (`chat_completion`) is modelled as total oracle
functions: the claims quantify over runs in which it returns text.  The
execution port (`conn.fetch` under `asyncio.wait_for`) is an oracle from
the SQL text and the attempt index (0 or 1) to an outcome.  The Python
`for attempt in range(2)` loop is unrolled into its two iterations. -/

/-- Outcome of one database execution: rows, `asyncio.TimeoutError`, or any
other exception (carrying `str(e)`). -/
inductive ExecOutcome
  | ok (rows : List Row)
  | timeout
  | err (msg : String)

/-- `s.strip(chars)`: drop characters satisfying `p` from both ends. -/
def pyStrip (cs : List Char) (p : Char → Bool) : List Char :=
  ((cs.dropWhile p).reverse.dropWhile p).reverse

/-- The post-processing applied to LLM-generated SQL:
`sql.strip().strip(backtick).strip()`, then drop a leading "sql" tag
(`if sql.startswith("sql"): sql = sql[3:].strip()`). -/
def cleanSql (raw : String) : String :=
  let s1 := pyStrip raw.data (·.isWhitespace)
  let s2 := pyStrip s1 (fun c => c.toNat = 96)
  let s3 := pyStrip s2 (·.isWhitespace)
  String.mk (if "sql".data.isPrefixOf s3 then pyStrip (s3.drop 3) (·.isWhitespace) else s3)

/-- Whether `needle` occurs as a contiguous substring of `hay`. -/
def hasSubstr : List Char → List Char → Bool
  | [], needle => needle.isEmpty
  | c :: rest, needle => needle.isPrefixOf (c :: rest) || hasSubstr rest needle

/-- Oracles for the stats pipeline's external calls. -/
structure StatsPorts where
  /-- text-to-SQL generation call: (question, news context) → raw text. -/
  genSql : String → Option String → String
  /-- self-correction call: (failing sql, error text, question) → raw text. -/
  fixSql : String → String → String → String
  /-- result-formatting call: (question, sql, truncated rows) → answer. -/
  fmt : String → String → List Row → String
  /-- database execution of a statement at a given attempt index. -/
  exec : String → Nat → ExecOutcome

/-- Return value of `answer_stats_question`, plus an instrumentation field
counting how many database execution attempts were made. -/
structure StatsAnswer where
  answer : String
  sql : String
  results : Option (List Row)
  execAttempts : Nat

/-- Fixed refusal returned when the safety gate rejects the SQL. -/
def readOnlyMsg : String :=
  "I can only run read-only queries. Your question would require modifying the database."

/-- Fixed answer returned on `asyncio.TimeoutError`. -/
def timeoutMsg : String :=
  "The query took too long to execute. Try a more specific question."

/-- Terminal error answer: `f"Error executing query: {last_error}"`. -/
def execErrorMsg (e : String) : String := "Error executing query: " ++ e

/-- `answer_stats_question`: generate SQL, gate it, execute with one
self-correcting retry (the `range(2)` loop unrolled), format results. -/
def answerStatsQuestion (question : String) (newsContext : Option String)
    (P : StatsPorts) : StatsAnswer :=
  let sql0 := cleanSql (P.genSql question newsContext)
  if mutationSearch sql0 then
    ⟨readOnlyMsg, sql0, none, 0⟩
  else
    match P.exec sql0 0 with
    | .timeout => ⟨timeoutMsg, sql0, none, 1⟩
    | .ok rows => ⟨P.fmt question sql0 (rows.take 25), sql0, some (rows.take 25), 1⟩
    | .err e0 =>
      let sql1 := cleanSql (P.fixSql sql0 e0 question)
      if mutationSearch sql1 then
        ⟨readOnlyMsg, sql1, none, 1⟩
      else
        match P.exec sql1 1 with
        | .timeout => ⟨timeoutMsg, sql1, none, 2⟩
        | .ok rows => ⟨P.fmt question sql1 (rows.take 25), sql1, some (rows.take 25), 2⟩
        | .err e1 => ⟨execErrorMsg e1, sql1, none, 2⟩

/-! ### News ranking key (`news_service.py`, `answer_news_question`)

The `ORDER BY` expression ranks chunks by
`(embedding <=> query) * (1.0 + GREATEST(0, EXTRACT(EPOCH FROM (NOW() - published))) / 86400.0 * 0.02)`.
We model the key as a function of the raw distance and the chunk's age in
seconds (negative for a future-dated article). -/

/-- The recency-weighted ranking key of the news `ORDER BY` clause. -/
def recencyWeightedDistance (d ageSeconds : ℚ) : ℚ :=
  d * (1 + max 0 ageSeconds / 86400 * (2 / 100))

/-- Modelled from the spec: the same key written in hours, `raw distance *
(1 + max(0, hours_since_published)/24 * 0.02)`; compared against
`recencyWeightedDistance` in the C6 theorem. -/
def specRecencyWeighted (d hours : ℚ) : ℚ :=
  d * (1 + max 0 hours / 24 * (2 / 100))

/-! ### Scores cache (`scores_service.py`)

`_cache` is `None` or a `(timestamp, payload)` pair; `get_scores` returns
the cached payload if the entry is younger than the 120-second TTL,
otherwise fetches (today's board, falling back to the two-day probe when
today has no games, and degrading to an empty payload on any exception)
and replaces the entry wholesale.  One call is modelled as a state
transformer returning `(payload, new cache, whether an upstream fetch
happened)`. -/

/-- The payload held in the scores cache: `{"games": ..., "label": ...}`. -/
structure ScoresPayload where
  games : List Row
  label : String
deriving DecidableEq

/-- The degraded payload `{"games": [], "label": "Today"}`. -/
def emptyScoresPayload : ScoresPayload := ⟨[], "Today"⟩

/-- The module-level `_cache`: `None` or `(timestamp, payload)`. -/
def CacheState := Option (ℚ × ScoresPayload)

deriving instance DecidableEq for CacheState

/-- `_CACHE_TTL = 120` seconds. -/
def CACHE_TTL : ℚ := 120

/-- The two upstream fetches of a refresh: `_fetch_scoreboard_today` and
`_fetch_upcoming`, each able to raise (both awaits sit in one `try`). -/
structure ScoresFetch where
  today : Except PyExc ScoresPayload
  upcoming : Except PyExc ScoresPayload

/-- The refresh path of `get_scores`: fetch today's board; when it has no
games, probe upcoming days; any exception degrades to the empty payload. -/
def scoresRefresh (F : ScoresFetch) : ScoresPayload :=
  match F.today with
  | .error _ => emptyScoresPayload
  | .ok r =>
    if r.games = [] then
      match F.upcoming with
      | .ok u => u
      | .error _ => emptyScoresPayload
    else r

/-- One call to `get_scores` at time `now` against cache state `cache`:
`(returned payload, new cache, whether an upstream fetch happened)`. -/
def getScores (F : ScoresFetch) (now : ℚ) (cache : CacheState) :
    ScoresPayload × CacheState × Bool :=
  match cache with
  | some (t, p) =>
    if now - t < CACHE_TTL then (p, some (t, p), false)
    else (scoresRefresh F, some (now, scoresRefresh F), true)
  | none => (scoresRefresh F, some (now, scoresRefresh F), true)

/-! ### Game preview pipeline (`game_preview_service.py`)

`generate_game_preview` builds a fixed 14-entry query plan, executes all
entries (each through `_execute_query`, which catches every exception and
degrades to `[]`) together with one news lookup wrapped in
`_safe_news_search` (which returns `None` on failure), merges everything
into one evidence bundle and formats it. -/

/-- The 14 keys of the fixed game-preview query plan. -/
inductive PreviewKey
  | homeStarters | awayStarters
  | homeSeasonAvg | awaySeasonAvg
  | h2hHome | h2hAway
  | homeDefense | awayDefense
  | homeProps | awayProps
  | homeTrends | awayTrends
  | homeSplits | awaySplits
deriving DecidableEq

/-- The evidence-bundle key string of each plan entry. -/
def previewKeyName : PreviewKey → String
  | .homeStarters => "home_starters"
  | .awayStarters => "away_starters"
  | .homeSeasonAvg => "home_season_avg"
  | .awaySeasonAvg => "away_season_avg"
  | .h2hHome => "h2h_home"
  | .h2hAway => "h2h_away"
  | .homeDefense => "home_defense"
  | .awayDefense => "away_defense"
  | .homeProps => "home_props"
  | .awayProps => "away_props"
  | .homeTrends => "home_trends"
  | .awayTrends => "away_trends"
  | .homeSplits => "home_splits"
  | .awaySplits => "away_splits"

/-- The plan keys in the insertion order of the `queries` dict. -/
def previewKeys : List PreviewKey :=
  [.homeStarters, .awayStarters, .homeSeasonAvg, .awaySeasonAvg,
   .h2hHome, .h2hAway, .homeDefense, .awayDefense,
   .homeProps, .awayProps, .homeTrends, .awayTrends,
   .homeSplits, .awaySplits]

/-- The result of one news pipeline run: `{"answer": ..., "sources": ...}`. -/
structure NewsResult where
  answer : String
  sources : List Source
deriving DecidableEq

/-- Oracles for the game-preview pipeline's external calls.  `dbExec`
models `conn.fetch` for each plan entry; `news` models
`answer_news_question`; `fmt` models the formatting chat call on the
serialized bundle and optional news section. -/
structure PreviewPorts where
  dbExec : PreviewKey → Except PyExc (List Row)
  news : Except PyExc NewsResult
  fmt : List (String × List Row) → Option NewsResult → String

/-- `_execute_query` for a plan entry: any exception degrades to `[]`
(the preview plan's SQL is static and passes the safety gate). -/
def previewExecute (P : PreviewPorts) (k : PreviewKey) : List Row :=
  match P.dbExec k with
  | .ok rows => rows
  | .error _ => []

/-- `_safe_news_search`: run the news pipeline, `None` on failure. -/
def safeNewsSearch (P : PreviewPorts) : Option NewsResult :=
  match P.news with
  | .ok r => some r
  | .error _ => none

/-- Return value of `generate_game_preview`, with the evidence bundle that
was passed to the formatting stage kept as an instrumentation field. -/
structure PreviewResult where
  answer : String
  category : String
  sources : List Source
  bundle : List (String × List Row)

/-- `generate_game_preview`: run the 14-entry plan and the news lookup,
merge into one bundle, format, return answer/category/sources. -/
def generateGamePreview (P : PreviewPorts) : PreviewResult :=
  let bundle := previewKeys.map (fun k => (previewKeyName k, previewExecute P k))
  let newsResult := safeNewsSearch P
  { answer := P.fmt bundle newsResult
    category := "game_preview"
    sources := match newsResult with
      | some r => r.sources
      | none => []
    bundle := bundle }

/-! ### Betting pipeline (`betting_service.py`)

`_parse_betting_intent` feeds the LLM's (fence-stripped) output to
`json.loads` and returns the decoded value, degrading to a default dict
only on `json.JSONDecodeError`.  We model the decode result directly: an
`Except` whose error is the decode failure and whose success is either a
JSON object holding the intent fields or some non-object JSON value (a
list, string, number, boolean or null).  Fields of an object are modelled
with their expected types; `.get` with a default is `Option.getD`.
`answer_betting_question` calls `.get` on the decoded value, which raises
`AttributeError` when the value is not a dict. -/

/-- One prop leg `{player, stat, line, direction}` as decoded from JSON;
every field may be absent. -/
structure PropLeg where
  player : Option String
  stat : Option String
  line : Option ℚ
  direction : Option String
deriving DecidableEq

/-- The fields of a decoded intent object; `none` is an absent key (the
`"opponent": null` of the default intent is also modelled as `none`, since
`.get("opponent")` returns `None` in both cases). -/
structure IntentDict where
  type : Option String
  players : Option (List String)
  props : Option (List PropLeg)
  teams : Option (List String)
  opponent : Option String
  location : Option String
deriving DecidableEq

/-- The default intent returned on a JSON decode failure. -/
def defaultIntent : IntentDict :=
  { type := some "FIND_PICKS", players := some [], props := some [],
    teams := some [], opponent := none, location := none }

/-- A decoded JSON value: an intent-shaped object, or any non-object value. -/
inductive IntentValue
  | nonObject
  | obj (d : IntentDict)
deriving DecidableEq

/-- `_parse_betting_intent`: return the decoded JSON, or the default
FIND_PICKS intent on `json.JSONDecodeError`. -/
def parseBettingIntent (decoded : Except PyExc IntentValue) : IntentValue :=
  match decoded with
  | .error _ => .obj defaultIntent
  | .ok v => v

/-- The static team name/abbreviation table `TEAM_ABBR_MAP`. -/
def TEAM_ABBR_MAP : List (String × String) :=
  [("hawks", "ATL"), ("celtics", "BOS"), ("nets", "BKN"), ("hornets", "CHA"),
   ("bulls", "CHI"), ("cavaliers", "CLE"), ("cavs", "CLE"), ("mavericks", "DAL"),
   ("mavs", "DAL"), ("nuggets", "DEN"), ("pistons", "DET"), ("warriors", "GSW"),
   ("rockets", "HOU"), ("pacers", "IND"), ("clippers", "LAC"), ("lakers", "LAL"),
   ("grizzlies", "MEM"), ("heat", "MIA"), ("bucks", "MIL"), ("timberwolves", "MIN"),
   ("wolves", "MIN"), ("pelicans", "NOP"), ("knicks", "NYK"), ("thunder", "OKC"),
   ("magic", "ORL"), ("76ers", "PHI"), ("sixers", "PHI"), ("suns", "PHX"),
   ("blazers", "POR"), ("trail blazers", "POR"), ("kings", "SAC"), ("spurs", "SAS"),
   ("raptors", "TOR"), ("jazz", "UTA"), ("wizards", "WAS"),
   ("atl", "ATL"), ("bos", "BOS"), ("bkn", "BKN"), ("cha", "CHA"), ("chi", "CHI"),
   ("cle", "CLE"), ("dal", "DAL"), ("den", "DEN"), ("det", "DET"), ("gsw", "GSW"),
   ("hou", "HOU"), ("ind", "IND"), ("lac", "LAC"), ("lal", "LAL"), ("mem", "MEM"),
   ("mia", "MIA"), ("mil", "MIL"), ("min", "MIN"), ("nop", "NOP"), ("nyk", "NYK"),
   ("okc", "OKC"), ("orl", "ORL"), ("phi", "PHI"), ("phx", "PHX"), ("por", "POR"),
   ("sac", "SAC"), ("sas", "SAS"), ("tor", "TOR"), ("uta", "UTA"), ("was", "WAS")]

/-- `_resolve_team_abbr`: `None`/empty is unresolvable, otherwise look up
`team_str.lower().strip()` in the table. -/
def resolveTeamAbbr (teamStr : Option String) : Option String :=
  match teamStr with
  | none => none
  | some s =>
    if s = "" then none
    else TEAM_ABBR_MAP.lookup (String.mk (pyStrip (s.data.map Char.toLower) (·.isWhitespace)))

/-- `p.get("player", "")` of a prop leg. -/
def legPlayerName (p : PropLeg) : String := p.player.getD ""

/-- `round(0.7 ** n * 100)` of the parlay-size warning, modelled exactly
over `ℚ`.  For every `n ≥ 3` (the only arguments used) the value
`7^n/10^(n-2)` is never a half-integer, so Python's bankers rounding
agrees with `round`; the drift between the binary double `0.7` and the
rational `7/10` cannot move the value across a rounding boundary for any
realistic leg count. -/
def pyRound07 (n : Nat) : ℤ := round (((7 : ℚ) / 10) ^ n * 100)

/-- The positive-correlation warning for one player name. -/
def corrMsg (name : String) : String :=
  name ++ ": points and assists are positively correlated — high-usage games boost both. This helps if both are overs."

/-- The zero-sum/blowout warning for multiple over-points legs. -/
def blowoutMsg : String :=
  "Multiple players over on points — if they\x27re on the same team, scoring is somewhat zero-sum within finite possessions. If on opposing teams, a blowout could limit one player\x27s minutes."

/-- The combined-probability warning for an `n`-leg parlay. -/
def parlayMsg (n : Nat) : String :=
  "This is a " ++ toString n ++ "-leg parlay. Combined probability drops significantly with each leg — even 70% individual legs give only ~" ++ toString (pyRound07 n) ++ "% combined."

/-- `_detect_parlay_correlations`: rule-based warnings.  The Python
`players` dict groups legs by `p.get("player", "")` in insertion order;
this is modelled as the deduplicated name list (first occurrences) with
each group recovered by filtering. -/
def detectParlayCorrelations (props : List PropLeg) : List String :=
  if props.length < 2 then []
  else
    let names := (props.map legPlayerName).dedup
    let samePlayer := names.filterMap (fun n =>
      let ps := props.filter (fun p => legPlayerName p == n)
      if 1 < ps.length ∧ some "pts" ∈ ps.map (·.stat) ∧ some "ast" ∈ ps.map (·.stat)
      then some (corrMsg n) else none)
    let overPtsCount :=
      (props.filter (fun p => p.stat == some "pts" && p.direction.getD "over" == "over")).length
    let blowout := if 2 ≤ overPtsCount then [blowoutMsg] else []
    let sizeWarning := if 3 ≤ props.length then [parlayMsg props.length] else []
    samePlayer ++ blowout ++ sizeWarning

/-- The five per-entity query builders of the betting plan (the SQL text of
each builder is fixed by the source; the tag carries its parameters). -/
inductive QueryTag
  | hitRate (player : String)
  | trend (player : String)
  | splits (player : String)
  | matchup (player opponent : String)
  | oppDefense (opponent : String)
deriving DecidableEq

/-- A value stored under one evidence-bundle key of the betting pipeline. -/
inductive EvidenceVal
  | rows (rs : List Row)
  | pickRows (rs : List (String × Row))
  | sched (s : List (String × String × String))
  | strs (ss : List String)
  | strMap (m : List (String × String))
  | defMap (m : List (String × List Row))
  | legProp (p : PropLeg)
  | legs (ps : List PropLeg)
  | txts (ss : List String)
  | txt (s : String)
deriving DecidableEq

/-- The `collected_data` dict: evidence keys in insertion order. -/
abbrev EvidenceBundle := List (String × EvidenceVal)

/-- Oracles for the betting pipeline's external calls.  `_execute_query`
catches every exception (and short-circuits gated SQL) so database
execution is total; row shapes are fixed by each builder's SELECT list.
`_get_todays_schedule` catches as well and returns a (team, opponent,
location) table. -/
structure BettingPorts where
  /-- `_execute_query` on a per-entity builder. -/
  exec : QueryTag → List Row
  /-- `_build_find_picks_query` rows: (display_name, remaining fields). -/
  execFindPicks : List (String × Row)
  /-- `_build_player_team_query` rows: (display_name, team_abbr). -/
  execPlayerTeam : List String → List (String × String)
  /-- `_build_b2b_today_query` rows: team_abbr values. -/
  execB2B : List String
  /-- `_get_todays_schedule()`: (team, opponent, location) entries. -/
  schedule : List (String × String × String)
  /-- the FORMAT_BETTING chat call on (question, serialized bundle). -/
  fmt : String → EvidenceBundle → String

/-- `schedule[team]` as `(opponent, location)`, when present. -/
def schedLookup (sched : List (String × String × String)) (team : String) :
    Option (String × String) :=
  (sched.find? (fun e => e.1 == team)).map (·.2)

/-- PROP_CHECK branch: hit-rate, trend and splits for the first player,
matchup and opponent defense when an opponent is known, plus the first
requested prop. -/
def propCheckBundle (P : BettingPorts) (player : String) (props : List PropLeg)
    (opponentAbbr : Option String) : EvidenceBundle :=
  ([("hit_rate", EvidenceVal.rows (P.exec (.hitRate player))),
    ("trend", EvidenceVal.rows (P.exec (.trend player))),
    ("splits", EvidenceVal.rows (P.exec (.splits player)))] ++
   (match opponentAbbr with
    | some o => [("matchup", EvidenceVal.rows (P.exec (.matchup player o))),
                 ("opp_defense", EvidenceVal.rows (P.exec (.oppDefense o)))]
    | none => [])) ++
  (match props with
   | p :: _ => [("requested_prop", EvidenceVal.legProp p)]
   | [] => [])

/-- `player_name.replace(" ", "_")`. -/
def underscoreName (name : String) : String :=
  String.mk (name.data.map (fun c => if c = ' ' then '_' else c))

/-- The effective opponent of one player in the FIND_PICKS players branch:
the explicit opponent, else the opponent of the player's team in today's
schedule (`if team and team in schedule`). -/
def effectiveOpp (opponentAbbr : Option String) (ptm : List (String × String))
    (sched : List (String × String × String)) (name : String) : Option String :=
  match opponentAbbr with
  | some o => some o
  | none =>
    match ptm.lookup name with
    | some team => if team = "" then none else (schedLookup sched team).map (·.1)
    | none => none

/-- FIND_PICKS branch with named players: schedule/B2B/team context, the
per-player query set (up to 3 players), and defense for every collected
opponent.  Python's `set` values (`b2b_teams`, `opp_set`) are modelled as
deduplicated lists in first-insertion order. -/
def findPicksPlayersBundle (P : BettingPorts) (players : List String)
    (opponentAbbr : Option String) : EvidenceBundle :=
  let sched := P.schedule
  let ptm := P.execPlayerTeam (players.take 3)
  let base : EvidenceBundle :=
    [("todays_schedule", EvidenceVal.sched sched),
     ("teams_on_b2b", EvidenceVal.strs P.execB2B.dedup),
     ("player_teams", EvidenceVal.strMap ptm)]
  let perPlayer : EvidenceBundle := (players.take 3).flatMap (fun name =>
    let pfx := underscoreName name
    [(pfx ++ "_hit_rate", EvidenceVal.rows (P.exec (.hitRate name))),
     (pfx ++ "_trend", EvidenceVal.rows (P.exec (.trend name))),
     (pfx ++ "_splits", EvidenceVal.rows (P.exec (.splits name)))] ++
    (match effectiveOpp opponentAbbr ptm sched name with
     | some o => [(pfx ++ "_matchup", EvidenceVal.rows (P.exec (.matchup name o)))]
     | none => []))
  let opps := (opponentAbbr.toList ++
    (players.take 3).filterMap (effectiveOpp opponentAbbr ptm sched)).dedup
  let defMap := opps.filterMap (fun o =>
    let r := P.exec (.oppDefense o)
    if r ≠ [] then some (o, r) else none)
  base ++ perPlayer ++
    (if opps ≠ [] then [("opponent_defense", EvidenceVal.defMap defMap)] else [])

/-- FIND_PICKS branch with no named players: the league-wide scan plus
schedule/B2B context, then team and opponent-defense resolution for the
scanned players. -/
def leagueScanBundle (P : BettingPorts) : EvidenceBundle :=
  let picks := P.execFindPicks
  let sched := P.schedule
  let base : EvidenceBundle :=
    [("high_hit_rate_props", EvidenceVal.pickRows picks),
     ("todays_schedule", EvidenceVal.sched sched),
     ("teams_on_b2b", EvidenceVal.strs P.execB2B)]
  if picks = [] then base
  else
    let ptm := P.execPlayerTeam (picks.map (·.1))
    let opps := (ptm.filterMap (fun e => (schedLookup sched e.2).map (·.1))).dedup
    let defMap := opps.filterMap (fun o =>
      let r := P.exec (.oppDefense o)
      if r ≠ [] then some (o, r) else none)
    base ++ [("player_teams", EvidenceVal.strMap ptm)] ++
      (if opps ≠ [] then [("opponent_defense", EvidenceVal.defMap defMap)] else [])

/-- PARLAY branch: hit-rate and trend per leg (skipping legs without a
player name), opponent defense when resolvable, the legs themselves and
the rule-based correlation warnings. -/
def parlayBundle (P : BettingPorts) (props : List PropLeg)
    (opponentAbbr : Option String) : EvidenceBundle :=
  (props.enum.flatMap (fun ip =>
    let name := legPlayerName ip.2
    if name = "" then []
    else
      let pfx := "leg" ++ toString ip.1
      [(pfx ++ "_hit_rate", EvidenceVal.rows (P.exec (.hitRate name))),
       (pfx ++ "_trend", EvidenceVal.rows (P.exec (.trend name)))])) ++
  (match opponentAbbr with
   | some o => [("opp_defense", EvidenceVal.rows (P.exec (.oppDefense o)))]
   | none => []) ++
  [("parlay_legs", EvidenceVal.legs props),
   ("correlation_warnings", EvidenceVal.txts (detectParlayCorrelations props))]

/-- GAME_PREVIEW branch: defensive ratings for each resolvable named team,
trend and hit-rate for up to three named players. -/
def gamePreviewBundle (P : BettingPorts) (players teamsRaw : List String) :
    EvidenceBundle :=
  (teamsRaw.filterMap (fun t =>
    (resolveTeamAbbr (some t)).map (fun a =>
      ("defense_" ++ a, EvidenceVal.rows (P.exec (.oppDefense a)))))) ++
  ((players.take 3).flatMap (fun p =>
    [("trend_" ++ p, EvidenceVal.rows (P.exec (.trend p))),
     ("hits_" ++ p, EvidenceVal.rows (P.exec (.hitRate p)))]))

/-- Fallback branch: treat as a league-wide FIND_PICKS scan. -/
def fallbackBundle (P : BettingPorts) : EvidenceBundle :=
  [("high_hit_rate_props", EvidenceVal.pickRows P.execFindPicks)]

/-- Branch dispatch of `answer_betting_question` on the intent type (the
`if/elif/elif/elif/else` chain; a PROP_CHECK without players and a PARLAY
without props fall through every `elif` into the fallback). -/
def bettingCollect (P : BettingPorts) (intentType : String)
    (players : List String) (props : List PropLeg) (teamsRaw : List String)
    (opponentAbbr : Option String) : EvidenceBundle :=
  if intentType = "PROP_CHECK" then
    match players with
    | p :: _ => propCheckBundle P p props opponentAbbr
    | [] => fallbackBundle P
  else if intentType = "FIND_PICKS" then
    match players with
    | [] => leagueScanBundle P
    | _ => findPicksPlayersBundle P players opponentAbbr
  else if intentType = "PARLAY" then
    match props with
    | [] => fallbackBundle P
    | _ => parlayBundle P props opponentAbbr
  else if intentType = "GAME_PREVIEW" then
    gamePreviewBundle P players teamsRaw
  else fallbackBundle P

/-- Return value of `answer_betting_question`: the formatted answer and
the parsed intent. -/
structure BettingResult where
  answer : String
  intent : IntentValue
deriving DecidableEq

/-- `answer_betting_question`: parse intent (raising `AttributeError` on a
decoded non-object once `.get` is called), resolve the opponent, collect
the intent-specific evidence, merge news context, format. -/
def answerBettingQuestion (question : String)
    (decoded : Except PyExc IntentValue) (newsContext : Option String)
    (P : BettingPorts) : Except PyExc BettingResult :=
  match parseBettingIntent decoded with
  | .nonObject => .error .attributeError
  | .obj d =>
    let intentType := d.type.getD "FIND_PICKS"
    let players := d.players.getD []
    let props := d.props.getD []
    let teamsRaw := d.teams.getD []
    let opponentAbbr :=
      match resolveTeamAbbr d.opponent with
      | some a => some a
      | none => teamsRaw.findSome? (fun t => resolveTeamAbbr (some t))
    let collected := bettingCollect P intentType players props teamsRaw opponentAbbr
    let collected := collected ++
      (match newsContext with
       | some t => [("news_context", EvidenceVal.txt t)]
       | none => [])
    .ok { answer := P.fmt question collected, intent := .obj d }

/-! ### Question router (`router_service.py`)

`route_question` resolves context when history is present (with **no**
exception handling around the call), normalizes, classifies (the fail-safe
STATS default lives inside `classify_question`), and dispatches.  The
BETTING branch awaits `asyncio.gather(betting, news)` without
`return_exceptions`, so an exception from either branch propagates out of
`route_question`; when both raise, whichever raised first in time wins —
modelled here as the betting error taking precedence (the choice is
immaterial to the claims).  The pipeline calls are `Except`-valued oracles
keyed by the input actually passed. -/

/-- A conversation turn (role, content). -/
def Msg := String × String

/-- The caller-visible fields of a routed answer (the stats branch's
`results` key is dropped: no router claim mentions it). -/
structure RouteResult where
  category : String
  originalQuestion : String
  answer : String
  sql : Option String
  sources : Option (List Source)
deriving DecidableEq

/-- Oracles for the router's external calls. -/
structure RoutePorts where
  /-- `resolve_context(question, message_history)` (a chat call). -/
  resolve : String → List Msg → Except PyExc String
  /-- `normalize_question(question)` (a chat call). -/
  normalize : String → Except PyExc String
  /-- the raw classification chat output for a question. -/
  classifyRaw : String → Except PyExc String
  /-- `answer_stats_question(question, news_context)`. -/
  stats : String → Option String → Except PyExc StatsAnswer
  /-- `answer_news_question(question)`. -/
  news : String → Except PyExc NewsResult
  /-- `answer_betting_question(question)`. -/
  betting : String → Except PyExc BettingResult

/-- `result.strip().upper()`. -/
def pyStripUpper (s : String) : String :=
  String.mk ((pyStrip s.data (·.isWhitespace)).map Char.toUpper)

/-- `classify_question`: classify via the cheap tier, defaulting to STATS
on any out-of-vocabulary token. -/
def classifyQuestion (P : RoutePorts) (q : String) : Except PyExc String :=
  (P.classifyRaw q).map (fun raw =>
    let c := pyStripUpper raw
    if c = "STATS" ∨ c = "NEWS" ∨ c = "MIXED" ∨ c = "BETTING" ∨ c = "OFF_TOPIC"
    then c else "STATS")

/-- The fixed OFF_TOPIC refusal. -/
def offTopicMsg : String :=
  "I\x27m an NBA assistant — my job is for NBA purposes only! Ask me about player stats, game scores, standings, trades, or league news."

/-- The subordinate watch section appended to a betting answer. -/
def watchSection (newsAnswer : String) : String :=
  "\n\n---\n**Injury/News Watch:**\n" ++ newsAnswer

/-- The MIXED branch's concatenated answer. -/
def mixedAnswer (statsAnswer newsAnswer : String) : String :=
  "**Stats perspective:**\n" ++ statsAnswer ++ "\n\n**News perspective:**\n" ++ newsAnswer

/-- `route_question`: resolve context if history is present, normalize,
classify, dispatch. -/
def routeQuestion (question : String) (history : List Msg) (P : RoutePorts) :
    Except PyExc RouteResult := do
  let q ← match history with
    | [] => Except.ok question
    | _ => P.resolve question history
  let normalized ← P.normalize q
  let category ← classifyQuestion P normalized
  if category = "OFF_TOPIC" then
    return { category := "off_topic", originalQuestion := q,
             answer := offTopicMsg, sql := none, sources := none }
  else if category = "STATS" then do
    let r ← P.stats normalized none
    return { category := "stats", originalQuestion := q,
             answer := r.answer, sql := some r.sql, sources := none }
  else if category = "NEWS" then do
    let r ← P.news normalized
    return { category := "news", originalQuestion := q,
             answer := r.answer, sql := none, sources := some r.sources }
  else if category = "BETTING" then
    match P.betting normalized, P.news normalized with
    | .error e, _ => .error e
    | .ok _, .error e => .error e
    | .ok b, .ok n =>
      let ans := if n.sources ≠ [] ∧ n.answer ≠ ""
        then b.answer ++ watchSection n.answer else b.answer
      return { category := "betting", originalQuestion := q,
               answer := ans, sql := none, sources := some n.sources }
  else do
    let n ← P.news normalized
    let s ← P.stats normalized (some n.answer)
    return { category := "mixed", originalQuestion := q,
             answer := mixedAnswer s.answer n.answer,
             sql := some s.sql, sources := some n.sources }

/-! ### Concrete fixtures used by witnesses and counterexamples -/

/-- A scores fetch in which both upstream calls succeed with an empty
board. -/
def sampleFetch : ScoresFetch :=
  ⟨Except.ok emptyScoresPayload, Except.ok emptyScoresPayload⟩

/-- A scores fetch in which today's scoreboard call raises. -/
def failFetch : ScoresFetch :=
  ⟨Except.error (PyExc.exc "http"), Except.ok emptyScoresPayload⟩

/-- Preview ports where the `h2h_home` entry raises and every other entry
returns one row. -/
def previewFixture : PreviewPorts where
  dbExec := fun k =>
    if k = .h2hHome then .error (.exc "db") else .ok [[("display_name", "X")]]
  news := .ok ⟨"news", []⟩
  fmt := fun _ _ => "preview"

/-- Betting ports with empty database results. -/
def emptyBettingPorts : BettingPorts where
  exec := fun _ => []
  execFindPicks := []
  execPlayerTeam := fun _ => []
  execB2B := []
  schedule := []
  fmt := fun _ _ => "analysis"

/-- A three-leg parlay: two LeBron James legs (points and assists) and an
Anthony Davis points leg, all overs. -/
def sampleParlay : List PropLeg :=
  [⟨some "LeBron James", some "pts", some (51 / 2), some "over"⟩,
   ⟨some "LeBron James", some "ast", some 8, some "over"⟩,
   ⟨some "Anthony Davis", some "pts", some 25, some "over"⟩]

/-- Router ports whose question classifies BETTING, with a succeeding
betting pipeline and a news pipeline that raises. -/
def gatherFailPorts : RoutePorts where
  resolve := fun q _ => .ok q
  normalize := fun q => .ok q
  classifyRaw := fun _ => .ok "BETTING"
  stats := fun _ _ => .ok ⟨"stats answer", "SELECT 1", some [], 1⟩
  news := fun _ => .error (.exc "news down")
  betting := fun _ => .ok ⟨"bet analysis", .obj defaultIntent⟩

/-- As `gatherFailPorts`, but the news pipeline succeeds with one source. -/
def gatherOkPorts : RoutePorts where
  resolve := fun q _ => .ok q
  normalize := fun q => .ok q
  classifyRaw := fun _ => .ok "BETTING"
  stats := fun _ _ => .ok ⟨"stats answer", "SELECT 1", some [], 1⟩
  news := fun _ => .ok ⟨"injury news", [("Title", "http://u", "espn")]⟩
  betting := fun _ => .ok ⟨"bet analysis", .obj defaultIntent⟩

/-- Router ports whose context-resolution call raises; the question
classifies STATS. -/
def resolveFailPorts : RoutePorts where
  resolve := fun _ _ => .error (.exc "llm down")
  normalize := fun q => .ok q
  classifyRaw := fun _ => .ok "STATS"
  stats := fun _ _ => .ok ⟨"stats answer", "SELECT 1", some [], 1⟩
  news := fun _ => .ok ⟨"news answer", []⟩
  betting := fun _ => .ok ⟨"bet analysis", .obj defaultIntent⟩

/-- As `resolveFailPorts`, but resolution succeeds with a rewritten
question. -/
def resolveOkPorts : RoutePorts where
  resolve := fun _ _ => .ok "resolved question"
  normalize := fun q => .ok q
  classifyRaw := fun _ => .ok "STATS"
  stats := fun _ _ => .ok ⟨"stats answer", "SELECT 1", some [], 1⟩
  news := fun _ => .ok ⟨"news answer", []⟩
  betting := fun _ => .ok ⟨"bet analysis", .obj defaultIntent⟩

/-! ## Lemmas and theorems -/

lemma matchHere_iff (cs : List Char) (kw : List Char) :
    matchHere cs kw = true ↔ ∃ post, cs = kw ++ post ∧ afterOk post = true := by
  unfold matchHere
  rw [Bool.and_eq_true, List.isPrefixOf_iff_prefix]
  constructor
  · rintro ⟨⟨post, rfl⟩, h⟩
    exact ⟨post, rfl, by simpa [List.drop_left] using h⟩
  · rintro ⟨post, rfl, h⟩
    exact ⟨⟨post, rfl⟩, by simpa [List.drop_left] using h⟩

lemma scanAux_iff (cs : List Char) : ∀ prev,
    scanAux prev cs = true ↔
      ∃ kw ∈ mutationKeywords, ∃ pre post : List Char,
        cs = pre ++ kw.data ++ post ∧
        boundaryOk (lastOr prev pre) = true ∧ afterOk post = true := by
  induction cs with
  | nil =>
    intro prev
    simp only [scanAux]
    constructor
    · intro h; exact absurd h (by simp)
    · rintro ⟨kw, hkw, pre, post, habs, -, -⟩
      have hpos : 0 < kw.length := by
        revert hkw
        have : ∀ kw ∈ mutationKeywords, 0 < kw.length := by decide
        exact this kw
      have hlen := congrArg List.length habs
      simp [List.length_append] at hlen
      omega
  | cons c rest ih =>
    intro prev
    simp only [scanAux, Bool.or_eq_true, Bool.and_eq_true, List.any_eq_true]
    constructor
    · rintro (⟨hb, kw, hkw, hm⟩ | htail)
      · rcases (matchHere_iff _ _).mp hm with ⟨post, heq, hpost⟩
        exact ⟨kw, hkw, [], post, by simpa using heq, by simpa [lastOr] using hb, hpost⟩
      · rcases (ih (some c)).mp htail with ⟨kw, hkw, pre, post, heq, hb, hpost⟩
        exact ⟨kw, hkw, c :: pre, post, by simp [heq], by simpa [lastOr] using hb, hpost⟩
    · rintro ⟨kw, hkw, pre, post, heq, hb, hpost⟩
      cases pre with
      | nil =>
        refine Or.inl ⟨by simpa [lastOr] using hb, kw, hkw, ?_⟩
        exact (matchHere_iff _ _).mpr ⟨post, by simpa using heq, hpost⟩
      | cons c0 pre0 =>
        have hc : c = c0 := by simpa using congrArg (List.head? ·) heq
        have hrest : rest = pre0 ++ kw.data ++ post := by
          have := congrArg List.tail heq
          simpa using this
        subst hc
        exact Or.inr ((ih (some c)).mpr ⟨kw, hkw, pre0, post, hrest, by simpa [lastOr] using hb, hpost⟩)

/-- C1: the safety gate rejects a SQL string exactly when it contains one of
INSERT, UPDATE, DELETE, DROP, ALTER, TRUNCATE, CREATE, GRANT, REVOKE, COPY,
EXECUTE as a case-insensitive whole word; in particular it rejects
"DELETE FROM players" and accepts a SELECT statement containing the
substring "created_at". -/
theorem c1_safety_validator :
    (∀ s : String, mutationSearch s = true ↔ containsMutationKeyword s) ∧
    mutationSearch "DELETE FROM players" = true ∧
    mutationSearch "SELECT created_at FROM players" = false := by
  refine ⟨fun s => scanAux_iff (pyUpper s) none, ?_, ?_⟩ <;> decide

/-- C2 counterexample: a run in which every execution attempt fails with a
non-timeout error ("boom"), but the LLM's corrected SQL is a mutation
statement.  The pipeline then returns the fixed read-only refusal after a
single execution attempt — not an answer containing the error message, as
the claim states. -/
theorem c2_counterexample :
    answerStatsQuestion "q" none
      { genSql := fun _ _ => "SELECT 1"
        fixSql := fun _ _ _ => "DROP TABLE players"
        fmt := fun _ _ _ => "ok"
        exec := fun _ _ => .err "boom" } =
      ⟨readOnlyMsg, "DROP TABLE players", none, 1⟩ ∧
    hasSubstr readOnlyMsg.data "boom".data = false := by
  constructor
  · have h0 : mutationSearch (cleanSql "SELECT 1") = false := by decide
    have h1 : mutationSearch (cleanSql "DROP TABLE players") = true := by decide
    have hc : cleanSql "DROP TABLE players" = "DROP TABLE players" := by decide
    simp [answerStatsQuestion, h0, h1, hc]
    rwa [hc] at h1
  · decide

/-- C2 (amended): whenever every execution attempt fails with a non-timeout
error, the pipeline makes at most two execution attempts and never a third;
if the corrected SQL passes the safety gate the result is the terminal
error answer containing the second error message (after exactly two
attempts), while if the gate rejects the corrected SQL the result is the
fixed read-only refusal after exactly one attempt. -/
theorem c2_stats_retry_bound (question : String) (nc : Option String)
    (P : StatsPorts) (emsg : String → Nat → String)
    (hexec : ∀ sql n, P.exec sql n = .err (emsg sql n)) :
    (answerStatsQuestion question nc P).execAttempts ≤ 2 ∧
    (let sql0 := cleanSql (P.genSql question nc)
     let sql1 := cleanSql (P.fixSql sql0 (emsg sql0 0) question)
     mutationSearch sql0 = false →
       (mutationSearch sql1 = true →
         answerStatsQuestion question nc P = ⟨readOnlyMsg, sql1, none, 1⟩) ∧
       (mutationSearch sql1 = false →
         answerStatsQuestion question nc P =
           ⟨execErrorMsg (emsg sql1 1), sql1, none, 2⟩)) := by
  simp only [answerStatsQuestion, hexec]
  by_cases h0 : mutationSearch (cleanSql (P.genSql question nc))
  · simp [h0]
  · simp only [h0, Bool.false_eq_true, if_false, not_false_iff]
    by_cases h1 : mutationSearch (cleanSql (P.fixSql (cleanSql (P.genSql question nc))
        (emsg (cleanSql (P.genSql question nc)) 0) question))
    · simp [h1]
    · simp [h1]

/-- C2 witness: the amended retry bound at a concrete port that always
fails with "boom" and corrects to a safe statement. -/
theorem c2_stats_retry_bound_witness :
    (answerStatsQuestion "q" none
      { genSql := fun _ _ => "SELECT 1"
        fixSql := fun _ _ _ => "SELECT 2"
        fmt := fun _ _ _ => "ok"
        exec := fun _ _ => .err "boom" }).execAttempts ≤ 2 ∧
    answerStatsQuestion "q" none
      { genSql := fun _ _ => "SELECT 1"
        fixSql := fun _ _ _ => "SELECT 2"
        fmt := fun _ _ _ => "ok"
        exec := fun _ _ => .err "boom" } =
      ⟨execErrorMsg "boom", "SELECT 2", none, 2⟩ := by
  have h := c2_stats_retry_bound "q" none
    { genSql := fun _ _ => "SELECT 1"
      fixSql := fun _ _ _ => "SELECT 2"
      fmt := fun _ _ _ => "ok"
      exec := fun _ _ => .err "boom" }
    (fun _ _ => "boom") (fun _ _ => rfl)
  refine ⟨h.1, ?_⟩
  have h2 := (h.2 (by decide)).2 (by decide)
  have hc : cleanSql "SELECT 2" = "SELECT 2" := by decide
  rw [h2, hc]

/-- C6 counterexample: two chunks with identical raw distance 0 whose
publish times are a day apart (ages 0 and 86400 seconds) receive the same
weighted distance, so the more recent one is not strictly smaller. -/
theorem c6_counterexample :
    ¬ recencyWeightedDistance 0 0 < recencyWeightedDistance 0 86400 := by
  norm_num [recencyWeightedDistance]

/-- C6 (amended): the ranking key is the raw distance times
`(1 + max(0, hours_since_published)/24 * 0.02)`; and for two chunks with
identical **positive** raw distance, when the newer age is below the older
and the older chunk lies in the past (positive age), the more recent chunk
gets a strictly smaller weighted distance. -/
theorem c6_recency_weighting :
    (∀ d h : ℚ, recencyWeightedDistance d (3600 * h) = specRecencyWeighted d h) ∧
    (∀ d aNew aOld : ℚ, 0 < d → aNew < aOld → 0 < aOld →
      recencyWeightedDistance d aNew < recencyWeightedDistance d aOld) := by
  constructor
  · intro d h
    unfold recencyWeightedDistance specRecencyWeighted
    have hm : max 0 (3600 * h) = 3600 * max 0 h := by
      rw [mul_max_of_nonneg _ _ (by norm_num : (0 : ℚ) ≤ 3600), mul_zero]
    rw [hm]; ring
  · intro d aNew aOld hd hlt hpos
    unfold recencyWeightedDistance
    have hmax : max 0 aNew < max 0 aOld := by
      rcases le_or_lt aNew 0 with h | h
      · rw [max_eq_left h, max_eq_right hpos.le]; exact hpos
      · rw [max_eq_right h.le, max_eq_right (h.trans hlt).le]; exact hlt
    nlinarith [mul_pos hd (sub_pos.mpr hmax)]

/-- C6 witness: with raw distance 1 and ages 0 vs one day, the newer chunk
ranks strictly better. -/
theorem c6_recency_weighting_witness :
    recencyWeightedDistance 1 0 < recencyWeightedDistance 1 86400 :=
  c6_recency_weighting.2 1 0 86400 (by norm_num) (by norm_num) (by norm_num)

/-- C7: a call made within 120 seconds of the fetching call that created
the cache entry returns the cached payload without any upstream fetch and
leaves the entry untouched; a call made 120 seconds or more after the
entry's timestamp performs a fetch and replaces the entry wholesale with a
new `(timestamp, payload)` pair. -/
theorem c7_scores_cache_ttl (F F2 : ScoresFetch) (t1 t2 : ℚ)
    (c : CacheState) (p : ScoresPayload) :
    ((getScores F t1 c).2.2 = true → t2 - t1 < CACHE_TTL →
      getScores F2 t2 (getScores F t1 c).2.1 =
        ((getScores F t1 c).1, (getScores F t1 c).2.1, false)) ∧
    (CACHE_TTL ≤ t2 - t1 →
      getScores F2 t2 (some (t1, p)) =
        (scoresRefresh F2, some (t2, scoresRefresh F2), true)) := by
  constructor
  · intro hf hlt
    cases c with
    | none => simp [getScores, hlt]
    | some tp =>
      obtain ⟨t, p0⟩ := tp
      by_cases hc : t1 - t < CACHE_TTL
      · simp [getScores, hc] at hf
      · simp [getScores, hc, hlt]
  · intro hge
    simp [getScores, not_lt.mpr hge]

/-- C7 witness: a fetching call at time 0 (cold cache), a hit at time 60,
and a refresh with wholesale replacement at time 120. -/
theorem c7_scores_cache_ttl_witness :
    (getScores sampleFetch 60 (getScores sampleFetch 0 none).2.1 =
      ((getScores sampleFetch 0 none).1, (getScores sampleFetch 0 none).2.1, false)) ∧
    (getScores sampleFetch 120 (some (0, emptyScoresPayload)) =
      (scoresRefresh sampleFetch, some (120, scoresRefresh sampleFetch), true)) :=
  ⟨(c7_scores_cache_ttl sampleFetch sampleFetch 0 60 none emptyScoresPayload).1
      rfl (by norm_num [CACHE_TTL]),
   (c7_scores_cache_ttl sampleFetch sampleFetch 0 120 none emptyScoresPayload).2
      (by norm_num [CACHE_TTL])⟩

/-- C10: when today's scoreboard fetch raises during a refresh (cold cache
or an expired entry), the degraded empty payload itself is stored in the
cache with the call's timestamp, and every call within the next 120
seconds returns the empty payload with no upstream fetch. -/
theorem c10_failure_cached (F F2 : ScoresFetch) (e : PyExc) (t t2 : ℚ)
    (hf : F.today = .error e) :
    getScores F t none = (emptyScoresPayload, some (t, emptyScoresPayload), true) ∧
    (∀ (p : ScoresPayload) (t0 : ℚ), CACHE_TTL ≤ t - t0 →
      getScores F t (some (t0, p)) =
        (emptyScoresPayload, some (t, emptyScoresPayload), true)) ∧
    (t2 - t < CACHE_TTL →
      getScores F2 t2 (some (t, emptyScoresPayload)) =
        (emptyScoresPayload, some (t, emptyScoresPayload), false)) := by
  refine ⟨?_, ?_, ?_⟩
  · simp [getScores, scoresRefresh, hf]
  · intro p t0 hge
    simp [getScores, scoresRefresh, hf, not_lt.mpr hge]
  · intro hlt
    simp [getScores, hlt]

/-- C10 witness: a failing fetch at time 0 caches the empty payload; the
cached failure is served without a fetch at time 119. -/
theorem c10_failure_cached_witness :
    getScores failFetch 0 none =
      (emptyScoresPayload, some (0, emptyScoresPayload), true) ∧
    getScores failFetch 119 (some (0, emptyScoresPayload)) =
      (emptyScoresPayload, some (0, emptyScoresPayload), false) :=
  ⟨(c10_failure_cached failFetch failFetch (.exc "http") 0 119 rfl).1,
   (c10_failure_cached failFetch failFetch (.exc "http") 0 119 rfl).2.2
      (by norm_num [CACHE_TTL])⟩

lemma mem_previewKeys (k : PreviewKey) : k ∈ previewKeys := by
  cases k <;> decide

/-- C8: if one of the 14 preview plan entries raises, its key resolves to
`[]` in the evidence bundle handed to formatting while every other entry's
rows are present unchanged; the bundle still has all 14 keys and the
pipeline still returns its normal game_preview answer. -/
theorem c8_preview_fanout (P : PreviewPorts) (k : PreviewKey) (e : PyExc)
    (hk : P.dbExec k = .error e) :
    (previewKeyName k, ([] : List Row)) ∈ (generateGamePreview P).bundle ∧
    (∀ j rows, P.dbExec j = .ok rows →
      (previewKeyName j, rows) ∈ (generateGamePreview P).bundle) ∧
    (generateGamePreview P).bundle.length = 14 ∧
    (generateGamePreview P).category = "game_preview" := by
  refine ⟨?_, ?_, ?_, rfl⟩
  · have hk0 : previewExecute P k = [] := by simp [previewExecute, hk]
    have hmem := List.mem_map_of_mem
      (fun j => (previewKeyName j, previewExecute P j)) (mem_previewKeys k)
    simpa [generateGamePreview, hk0] using hmem
  · intro j rows hj
    have hj0 : previewExecute P j = rows := by simp [previewExecute, hj]
    have hmem := List.mem_map_of_mem
      (fun j => (previewKeyName j, previewExecute P j)) (mem_previewKeys j)
    simpa [generateGamePreview, hj0] using hmem
  · simp [generateGamePreview, previewKeys]

/-- C8 witness: with the `h2h_home` entry raising and every other entry
returning one row, the bundle keeps the 13 sibling results and maps
`h2h_home` to `[]`. -/
theorem c8_preview_fanout_witness :
    (("h2h_home", ([] : List Row)) ∈
      (generateGamePreview previewFixture).bundle) ∧
    (("home_starters", ([[("display_name", "X")]] : List Row)) ∈
      (generateGamePreview previewFixture).bundle) ∧
    (generateGamePreview previewFixture).bundle.length = 14 ∧
    (generateGamePreview previewFixture).category = "game_preview" := by
  have h := c8_preview_fanout previewFixture .h2hHome (.exc "db") rfl
  exact ⟨h.1, h.2.1 .homeStarters _ rfl, h.2.2⟩

/-- C5 counterexample: when the generation port returns valid JSON that is
not the BettingIntent shape (e.g. the list "[1, 2]"), `json.loads`
succeeds, `_parse_betting_intent` returns the decoded value unchanged —
not the default intent — and `answer_betting_question` raises
AttributeError at the first `intent.get`, so no answer is produced. -/
theorem c5_counterexample :
    parseBettingIntent (.ok .nonObject) = .nonObject ∧
    parseBettingIntent (.ok .nonObject) ≠ .obj defaultIntent ∧
    answerBettingQuestion "q" (.ok .nonObject) none emptyBettingPorts =
      .error .attributeError :=
  ⟨rfl, by decide, rfl⟩

/-- C5 (amended): only a JSON **decode failure** degrades to the default
FIND_PICKS intent, in which case `answer_betting_question` still returns a
non-error answer carrying the default intent (it runs the league-wide scan
branch); a decoded non-object value is returned unchanged by the parser
and makes the pipeline raise. -/
theorem c5_default_intent (q : String) (e : PyExc) (nc : Option String)
    (P : BettingPorts) :
    parseBettingIntent (.error e) = .obj defaultIntent ∧
    ∃ a, answerBettingQuestion q (.error e) nc P = .ok a ∧
      a.intent = .obj defaultIntent ∧
      a.answer = P.fmt q (leagueScanBundle P ++
        (match nc with
         | some t => [("news_context", EvidenceVal.txt t)]
         | none => [])) :=
  ⟨rfl, _, rfl, rfl, rfl⟩

lemma one_lt_length_of_mem_ne {α : Type} {a b : α} {l : List α}
    (ha : a ∈ l) (hb : b ∈ l) (hne : a ≠ b) : 1 < l.length := by
  cases l with
  | nil => simp at ha
  | cons x xs =>
    cases xs with
    | nil =>
      simp only [List.mem_singleton] at ha hb
      exact absurd (ha.trans hb.symm) hne
    | cons y ys => simp only [List.length_cons]; omega

/-- C9: the parlay correlation detector flags positive correlation whenever
one player name carries both a points leg and an assists leg, flags the
zero-sum/blowout risk whenever at least two legs are over-points legs, and
for three or more legs reports the naively-multiplied combined probability
message (computed as `round(0.7^n * 100)` under the stated independence
assumption). -/
theorem c9_parlay_correlation_rules :
    (∀ (props : List PropLeg) (p1 p2 : PropLeg), p1 ∈ props → p2 ∈ props →
      legPlayerName p1 = legPlayerName p2 →
      p1.stat = some "pts" → p2.stat = some "ast" →
      corrMsg (legPlayerName p1) ∈ detectParlayCorrelations props) ∧
    (∀ props : List PropLeg,
      2 ≤ (props.filter
            (fun p => p.stat == some "pts" && p.direction.getD "over" == "over")).length →
      blowoutMsg ∈ detectParlayCorrelations props) ∧
    (∀ props : List PropLeg, 3 ≤ props.length →
      parlayMsg props.length ∈ detectParlayCorrelations props) := by
  refine ⟨?_, ?_, ?_⟩
  · intro props p1 p2 hp1 hp2 hname hs1 hs2
    have hne : p1 ≠ p2 := by
      intro h
      rw [h, hs2] at hs1
      simp at hs1
    have hp1f : p1 ∈ props.filter (fun p => legPlayerName p == legPlayerName p1) :=
      List.mem_filter.mpr ⟨hp1, by simp⟩
    have hp2f : p2 ∈ props.filter (fun p => legPlayerName p == legPlayerName p1) :=
      List.mem_filter.mpr ⟨hp2, by simp [hname]⟩
    have hlen2 : 1 < (props.filter
        (fun p => legPlayerName p == legPlayerName p1)).length :=
      one_lt_length_of_mem_ne hp1f hp2f hne
    have hlen : 1 < props.length :=
      one_lt_length_of_mem_ne hp1 hp2 hne
    simp only [detectParlayCorrelations]
    rw [if_neg (by omega)]
    refine List.mem_append.mpr (Or.inl (List.mem_append.mpr (Or.inl ?_)))
    refine List.mem_filterMap.mpr ⟨legPlayerName p1, ?_, ?_⟩
    · exact List.mem_dedup.mpr (List.mem_map_of_mem _ hp1)
    · rw [if_pos]
      exact ⟨hlen2,
        List.mem_map.mpr ⟨p1, hp1f, hs1⟩,
        List.mem_map.mpr ⟨p2, hp2f, hs2⟩⟩
  · intro props h2
    have hlen : 2 ≤ props.length :=
      le_trans h2 (List.length_filter_le _ _)
    simp only [detectParlayCorrelations]
    rw [if_neg (by omega)]
    refine List.mem_append.mpr (Or.inl (List.mem_append.mpr (Or.inr ?_)))
    rw [if_pos h2]
    exact List.mem_singleton_self _
  · intro props h3
    simp only [detectParlayCorrelations]
    rw [if_neg (by omega)]
    refine List.mem_append.mpr (Or.inr ?_)
    rw [if_pos h3]
    exact List.mem_singleton_self _

/-- C9 witness: on a three-leg parlay (LeBron points + LeBron assists +
Davis points, all overs) all three warnings are emitted. -/
theorem c9_parlay_correlation_rules_witness :
    corrMsg "LeBron James" ∈ detectParlayCorrelations sampleParlay ∧
    blowoutMsg ∈ detectParlayCorrelations sampleParlay ∧
    parlayMsg 3 ∈ detectParlayCorrelations sampleParlay :=
  ⟨c9_parlay_correlation_rules.1 sampleParlay
      ⟨some "LeBron James", some "pts", some (51 / 2), some "over"⟩
      ⟨some "LeBron James", some "ast", some 8, some "over"⟩
      (by simp [sampleParlay]) (by simp [sampleParlay]) rfl rfl rfl,
   c9_parlay_correlation_rules.2.1 sampleParlay (by decide),
   c9_parlay_correlation_rules.2.2 sampleParlay (by decide)⟩

/-- C3 counterexample: with the question classified BETTING, a succeeding
betting pipeline and a news pipeline that raises, `route_question` returns
the news error — the request fails and the betting answer is lost, because
`asyncio.gather` is awaited without `return_exceptions` and without a
try/except around the news branch. -/
theorem c3_counterexample :
    routeQuestion "q" [] gatherFailPorts = .error (.exc "news down") := rfl

/-- C3 (amended): on a BETTING classification the betting and news
pipelines run under one gather: an exception from the news pipeline
propagates out of `route_question` (losing the betting answer); when both
succeed the router returns a betting-category answer, appending the news
text as the subordinate watch section exactly when the news sources are
non-empty and its answer text is non-empty. -/
theorem c3_betting_news_gather (question nq : String) (P : RoutePorts)
    (b : BettingResult)
    (hnorm : P.normalize question = .ok nq)
    (hclass : classifyQuestion P nq = .ok "BETTING")
    (hbet : P.betting nq = .ok b) :
    (∀ e, P.news nq = .error e → routeQuestion question [] P = .error e) ∧
    (∀ n, P.news nq = .ok n →
      routeQuestion question [] P = .ok
        { category := "betting", originalQuestion := question,
          answer := if n.sources ≠ [] ∧ n.answer ≠ ""
            then b.answer ++ watchSection n.answer else b.answer,
          sql := none, sources := some n.sources }) := by
  constructor
  · intro e hnews
    simp [routeQuestion, hnorm, hclass, hbet, hnews, Bind.bind, Except.bind]
  · intro n hnews
    simp [routeQuestion, hnorm, hclass, hbet, hnews, Bind.bind, Except.bind, pure, Except.pure]

/-- C3 witness: the amended gather contract at concrete ports whose news
pipeline succeeds with one source. -/
theorem c3_betting_news_gather_witness :
    routeQuestion "q" [] gatherOkPorts = .ok
      { category := "betting", originalQuestion := "q",
        answer := "bet analysis" ++ watchSection "injury news",
        sql := none, sources := some [("Title", "http://u", "espn")] } := by
  have h := (c3_betting_news_gather "q" "q" gatherOkPorts
      ⟨"bet analysis", .obj defaultIntent⟩ rfl rfl rfl).2
    ⟨"injury news", [("Title", "http://u", "espn")]⟩ rfl
  simpa using h

/-- C4 counterexample: with non-empty history and a context-resolution
call that raises, `route_question` propagates the error (there is no
try/except around `resolve_context`), while the identical request without
history — i.e. what "skipping resolution" would produce — succeeds. -/
theorem c4_counterexample :
    routeQuestion "and his assists?" [("user", "tatum ppg")] resolveFailPorts =
      .error (.exc "llm down") ∧
    routeQuestion "and his assists?" [] resolveFailPorts = .ok
      { category := "stats", originalQuestion := "and his assists?",
        answer := "stats answer", sql := some "SELECT 1", sources := none } :=
  ⟨rfl, rfl⟩

/-- C4 (amended): with non-empty history, an error from the
context-resolution call propagates out of `route_question` and aborts the
request — resolution is not skipped; when resolution succeeds with a
rewritten question, the request proceeds exactly as a history-free request
on the rewritten question. -/
theorem c4_resolve_failure_propagates (question : String) (hist : List Msg)
    (P : RoutePorts) (hne : hist ≠ []) :
    (∀ e, P.resolve question hist = .error e →
      routeQuestion question hist P = .error e) ∧
    (∀ r, P.resolve question hist = .ok r →
      routeQuestion question hist P = routeQuestion r [] P) := by
  obtain ⟨m, ms, rfl⟩ : ∃ m ms, hist = m :: ms := by
    cases hist with
    | nil => exact absurd rfl hne
    | cons m ms => exact ⟨m, ms, rfl⟩
  constructor
  · intro e hres
    simp [routeQuestion, hres, Bind.bind, Except.bind]
  · intro r hres
    simp [routeQuestion, hres, Bind.bind, Except.bind]

/-- C4 witness: the amended propagation contract at concrete ports, for
both a failing and a succeeding resolution call. -/
theorem c4_resolve_failure_propagates_witness :
    routeQuestion "q" [("user", "x")] resolveFailPorts =
      .error (.exc "llm down") ∧
    routeQuestion "q" [("user", "x")] resolveOkPorts =
      routeQuestion "resolved question" [] resolveOkPorts :=
  ⟨(c4_resolve_failure_propagates "q" [("user", "x")] resolveFailPorts
      (by simp)).1 (.exc "llm down") rfl,
   (c4_resolve_failure_propagates "q" [("user", "x")] resolveOkPorts
      (by simp)).2 "resolved question" rfl⟩

end NbaAgent
